import Mathlib

/-!
Verification of the Webserver reconciler
(`src/controllers/webserver_controller.go`, package `controllers`).

The reconciler is a single sequential function issuing calls to a
cluster-object-store client.  We embed it shallowly: the responses of the
client and of the owner-reference assignment are an oracle
(`ClientBehavior`, `SchemeBehavior`), and `Reconcile` returns the
controller result, the returned error, and the trace of store calls it
issued, in order.  Each recorded call also carries which Go context the
source passes to it (`ctx`, the dispatcher-supplied argument, versus
`context.TODO()`).
-/

/-- A (namespace, name) pair identifying an object, `req.NamespacedName`. -/
structure NamespacedName where
  ns : String
  name : String
deriving DecidableEq, Repr

/-- Errors a store call can return, following the spec's error taxonomy
(`errors.IsNotFound` is the only predicate the source tests). -/
inductive StoreError where
  | notFound
  | alreadyExists
  | conflict
  | other (code : Nat)
deriving DecidableEq, Repr

/-- `errors.IsNotFound` on the embedded error type. -/
def isNotFound : StoreError → Bool
  | StoreError.notFound => true
  | _ => false

/-- The spec of the Webserver custom resource: a replica count
(`instance.Spec.Count` in the source). -/
structure WebserverSpec where
  count : Int
deriving DecidableEq, Repr

/-- The Webserver custom-resource instance: identity plus spec. -/
structure Webserver where
  name : String
  ns : String
  spec : WebserverSpec
deriving DecidableEq, Repr

/-- Modelled from the spec: the Webserver API type (api/v1alpha1) is not
under src/; per the spec, `spec.count` is an optional integer field that
defaults to the Go zero value when absent.  Decoding an instance with an
absent count therefore yields count 0. -/
def decodeWebserver (ns name : String) (count? : Option Int) : Webserver :=
  { name := name, ns := ns, spec := { count := count?.getD 0 } }

/-- The observable effect of `controllerutil.SetControllerReference`:
the child records the owning instance as its controller. -/
structure ControllerOwner where
  ownerName : String
deriving DecidableEq, Repr

/-- A container port (`corev1.ContainerPort`), fields used by the source. -/
structure ContainerPort where
  name : String
  containerPort : Int
deriving DecidableEq, Repr

/-- A pod container (`corev1.Container`), fields used by the source. -/
structure Container where
  name : String
  image : String
  ports : List ContainerPort
deriving DecidableEq, Repr

/-- `metav1.LabelSelector`, match-labels only. -/
structure LabelSelector where
  matchLabels : List (String × String)
deriving DecidableEq, Repr

/-- `corev1.PodTemplateSpec`: labels and pod containers. -/
structure PodTemplateSpec where
  labels : List (String × String)
  containers : List Container
deriving DecidableEq, Repr

/-- `appsv1.DeploymentSpec`, fields used by the source. -/
structure DeploymentSpec where
  replicas : Int
  selector : LabelSelector
  template : PodTemplateSpec
deriving DecidableEq, Repr

/-- `appsv1.Deployment`, fields used by the source. -/
structure Deployment where
  name : String
  ns : String
  ownerRef : Option ControllerOwner
  spec : DeploymentSpec
deriving DecidableEq, Repr

/-- `corev1.ServicePort`, fields used by the source. -/
structure ServicePort where
  name : String
  protocol : String
  port : Int
deriving DecidableEq, Repr

/-- `corev1.Service`, fields used by the source. -/
structure Service where
  name : String
  ns : String
  ownerRef : Option ControllerOwner
  selector : List (String × String)
  ports : List ServicePort
deriving DecidableEq, Repr

/-- `routev1.RouteTargetReference`. -/
structure RouteTargetReference where
  kind : String
  name : String
deriving DecidableEq, Repr

/-- `routev1.Route`, fields used by the source (`Spec.To`, `Spec.Port`). -/
structure Route where
  name : String
  ns : String
  labels : List (String × String)
  ownerRef : Option ControllerOwner
  toRef : RouteTargetReference
  targetPort : Int
deriving DecidableEq, Repr

/-- The fixed web-server image the source hard-codes. -/
def webserverImage : String :=
  "registry.access.redhat.com/rhscl/httpd-24-rhel7:latest"

/-- The label map `{"app": instance.Name}` built at the top of Reconcile. -/
def appLabels (inst : Webserver) : List (String × String) :=
  [("app", inst.name)]

/-- The desired Deployment the source builds from the instance
(owner reference not yet set). -/
def buildDeployment (inst : Webserver) : Deployment :=
  { name := inst.name
    ns := inst.ns
    ownerRef := none
    spec :=
      { replicas := inst.spec.count
        selector := { matchLabels := appLabels inst }
        template :=
          { labels := appLabels inst
            containers :=
              [{ name := "webserver"
                 image := webserverImage
                 ports := [{ name := "http", containerPort := 8080 }] }] } } }

/-- The desired Service the source builds from the instance. -/
def buildService (inst : Webserver) : Service :=
  { name := inst.name
    ns := inst.ns
    ownerRef := none
    selector := appLabels inst
    ports := [{ name := "http", protocol := "TCP", port := 8080 }] }

/-- The desired Route the source builds from the instance. -/
def buildRoute (inst : Webserver) : Route :=
  { name := inst.name
    ns := inst.ns
    labels := appLabels inst
    ownerRef := none
    toRef := { kind := "Service", name := inst.name }
    targetPort := 8080 }

/-- Successful `SetControllerReference` on a Deployment. -/
def setDeploymentOwner (inst : Webserver) (d : Deployment) : Deployment :=
  { d with ownerRef := some { ownerName := inst.name } }

/-- Successful `SetControllerReference` on a Service. -/
def setServiceOwner (inst : Webserver) (sv : Service) : Service :=
  { sv with ownerRef := some { ownerName := inst.name } }

/-- Successful `SetControllerReference` on a Route. -/
def setRouteOwner (inst : Webserver) (rt : Route) : Route :=
  { rt with ownerRef := some { ownerName := inst.name } }

/-- Which Go context a store call receives in the source: the
dispatcher-supplied `ctx` argument, or a fresh `context.TODO()`. -/
inductive CtxKind where
  | dispatcher
  | todo
deriving DecidableEq, Repr

/-- One call issued to the cluster-object-store client, with the context
it was given and the object it carried. -/
inductive StoreOp where
  | getInstance (c : CtxKind) (key : NamespacedName)
  | createDeployment (c : CtxKind) (d : Deployment)
  | updateDeployment (c : CtxKind) (d : Deployment)
  | createService (c : CtxKind) (sv : Service)
  | updateService (c : CtxKind) (sv : Service)
  | createRoute (c : CtxKind) (rt : Route)
  | updateRoute (c : CtxKind) (rt : Route)
deriving DecidableEq, Repr

/-- The kind of a store call, payload forgotten. -/
inductive OpKind where
  | getI
  | createD
  | updateD
  | createS
  | updateS
  | createR
  | updateR
deriving DecidableEq, Repr

/-- Kind of a store call. -/
def StoreOp.opKind : StoreOp → OpKind
  | StoreOp.getInstance _ _ => OpKind.getI
  | StoreOp.createDeployment _ _ => OpKind.createD
  | StoreOp.updateDeployment _ _ => OpKind.updateD
  | StoreOp.createService _ _ => OpKind.createS
  | StoreOp.updateService _ _ => OpKind.updateS
  | StoreOp.createRoute _ _ => OpKind.createR
  | StoreOp.updateRoute _ _ => OpKind.updateR

/-- The context a store call was given. -/
def StoreOp.ctxUsed : StoreOp → CtxKind
  | StoreOp.getInstance c _ => c
  | StoreOp.createDeployment c _ => c
  | StoreOp.updateDeployment c _ => c
  | StoreOp.createService c _ => c
  | StoreOp.updateService c _ => c
  | StoreOp.createRoute c _ => c
  | StoreOp.updateRoute c _ => c

/-- Whether a store call writes to the store (everything but the get). -/
def StoreOp.isWrite : StoreOp → Bool
  | StoreOp.getInstance _ _ => false
  | _ => true

/-- Oracle for the client's responses during one Reconcile invocation:
what `Get` returns for the instance, and whether each create/update call
succeeds (`none`) or fails with an error (`some e`).  Reconcile issues
each of these calls at most once per invocation. -/
structure ClientBehavior where
  getInstance : Except StoreError Webserver
  createDeployment : Option StoreError
  updateDeployment : Option StoreError
  createService : Option StoreError
  createRoute : Option StoreError
deriving Repr

/-- Oracle for the three `SetControllerReference` calls. -/
structure SchemeBehavior where
  setOwnerDeployment : Option StoreError
  setOwnerService : Option StoreError
  setOwnerRoute : Option StoreError
deriving DecidableEq, Repr

/-- `ctrl.Result`: requeue flag and requeue-after duration. -/
structure CtrlResult where
  requeue : Bool
  requeueAfter : Nat
deriving DecidableEq, Repr

/-- `ctrl.Result{}`, the empty result returned at every exit of the source. -/
def emptyResult : CtrlResult := { requeue := false, requeueAfter := 0 }

/-- What one Reconcile invocation produced: the controller result, the
returned error, and the ordered trace of store calls issued. -/
structure ReconcileOutcome where
  result : CtrlResult
  error : Option StoreError
  trace : List StoreOp
deriving DecidableEq, Repr

/-- The Service and Route tail of Reconcile (source lines 116-168): build
the Service, set its owner, create it with no update fallback, then the
same for the Route. -/
def reconcileService (c : ClientBehavior) (s : SchemeBehavior)
    (inst : Webserver) (t : List StoreOp) : ReconcileOutcome :=
  match s.setOwnerService with
  | some e => { result := emptyResult, error := some e, trace := t }
  | none =>
    let sv := setServiceOwner inst (buildService inst)
    let t1 := t ++ [StoreOp.createService CtxKind.todo sv]
    match c.createService with
    | some e => { result := emptyResult, error := some e, trace := t1 }
    | none =>
      match s.setOwnerRoute with
      | some e => { result := emptyResult, error := some e, trace := t1 }
      | none =>
        let rt := setRouteOwner inst (buildRoute inst)
        let t2 := t1 ++ [StoreOp.createRoute CtxKind.todo rt]
        match c.createRoute with
        | some e => { result := emptyResult, error := some e, trace := t2 }
        | none => { result := emptyResult, error := none, trace := t2 }

/-- The Reconcile function of `webserver_controller.go`, lines 57-169:
fetch the instance with the dispatcher context (NotFound is success, any
other fetch error is returned); build the Deployment, set its owner,
create it with `context.TODO()` and on any create failure update it with
`context.TODO()`; then the Service and Route, each created with
`context.TODO()` and no update fallback. -/
def Reconcile (c : ClientBehavior) (s : SchemeBehavior)
    (req : NamespacedName) : ReconcileOutcome :=
  let t0 := [StoreOp.getInstance CtxKind.dispatcher req]
  match c.getInstance with
  | Except.error e =>
    if isNotFound e then { result := emptyResult, error := none, trace := t0 }
    else { result := emptyResult, error := some e, trace := t0 }
  | Except.ok inst =>
    match s.setOwnerDeployment with
    | some e => { result := emptyResult, error := some e, trace := t0 }
    | none =>
      let d := setDeploymentOwner inst (buildDeployment inst)
      let t1 := t0 ++ [StoreOp.createDeployment CtxKind.todo d]
      match c.createDeployment with
      | some _ =>
        let t2 := t1 ++ [StoreOp.updateDeployment CtxKind.todo d]
        match c.updateDeployment with
        | some e2 => { result := emptyResult, error := some e2, trace := t2 }
        | none => reconcileService c s inst t2
      | none => reconcileService c s inst t1

/-- A cluster state tracking which of the three children currently exist,
used to derive the client's responses across consecutive invocations with
no external changes. -/
structure Cluster where
  hasDeployment : Bool
  hasService : Bool
  hasRoute : Bool
deriving DecidableEq, Repr

/-- The client behaviour induced by a cluster state with the instance
present: create fails with AlreadyExists exactly when the child exists,
update succeeds exactly when it exists. -/
def clusterClient (cl : Cluster) (inst : Webserver) : ClientBehavior :=
  { getInstance := Except.ok inst
    createDeployment := if cl.hasDeployment then some StoreError.alreadyExists else none
    updateDeployment := if cl.hasDeployment then none else some StoreError.notFound
    createService := if cl.hasService then some StoreError.alreadyExists else none
    createRoute := if cl.hasRoute then some StoreError.alreadyExists else none }

/-- A scheme on which every owner-reference assignment succeeds. -/
def okScheme : SchemeBehavior :=
  { setOwnerDeployment := none, setOwnerService := none, setOwnerRoute := none }

/-- Effect of one store call on which children exist. -/
def applyOp (cl : Cluster) : StoreOp → Cluster
  | StoreOp.createDeployment _ _ => { cl with hasDeployment := true }
  | StoreOp.createService _ _ => { cl with hasService := true }
  | StoreOp.createRoute _ _ => { cl with hasRoute := true }
  | _ => cl

/-- Effect of a trace of store calls on the cluster state. -/
def applyOps (cl : Cluster) (t : List StoreOp) : Cluster :=
  t.foldl applyOp cl

/-- The instance of the spec's worked scenario: `demo/site1` with count 2. -/
def inst0 : Webserver := { name := "site1", ns := "demo", spec := { count := 2 } }

/-- The request key of the worked scenario. -/
def req0 : NamespacedName := { ns := "demo", name := "site1" }

/-- A client on which the instance is found and every write succeeds. -/
def allOkClient (inst : Webserver) : ClientBehavior :=
  { getInstance := Except.ok inst
    createDeployment := none
    updateDeployment := none
    createService := none
    createRoute := none }

/-- A client whose instance fetch returns NotFound. -/
def fetchNotFoundClient : ClientBehavior :=
  { getInstance := Except.error StoreError.notFound
    createDeployment := none
    updateDeployment := none
    createService := none
    createRoute := none }

/-- A client whose instance fetch fails with a non-NotFound error. -/
def fetchFailClient : ClientBehavior :=
  { getInstance := Except.error (StoreError.other 7)
    createDeployment := none
    updateDeployment := none
    createService := none
    createRoute := none }

/-- Whatever the service/route oracles answer, the trace only grows. -/
theorem mem_reconcileService_trace (c : ClientBehavior) (s : SchemeBehavior)
    (inst : Webserver) (t : List StoreOp) (op : StoreOp) (h : op ∈ t) :
    op ∈ (reconcileService c s inst t).trace := by
  unfold reconcileService
  cases s.setOwnerService with
  | some e => simpa using h
  | none =>
    cases c.createService with
    | some e => simp [List.mem_append, h]
    | none =>
      cases s.setOwnerRoute with
      | some e => simp [List.mem_append, h]
      | none =>
        cases c.createRoute with
        | some e => simp [List.mem_append, h]
        | none => simp [List.mem_append, h]

/-- C1: when the instance fetch returns NotFound, Reconcile returns the
empty result with no error and the trace holds no store write; when the
fetch fails with any other error, Reconcile returns exactly that error. -/
theorem reconcile_fetch_error_handling
    (c : ClientBehavior) (s : SchemeBehavior) (req : NamespacedName)
    (e : StoreError) (hget : c.getInstance = Except.error e) :
    (isNotFound e = true →
      (Reconcile c s req).error = none ∧
      (Reconcile c s req).result = emptyResult ∧
      (Reconcile c s req).trace.filter StoreOp.isWrite = []) ∧
    (isNotFound e = false →
      (Reconcile c s req).error = some e ∧
      (Reconcile c s req).trace.filter StoreOp.isWrite = []) := by
  constructor <;> intro hnf <;>
    simp [Reconcile, hget, hnf, StoreOp.isWrite, List.filter]

/-- Closed instantiation of `reconcile_fetch_error_handling` at the two
fetch-failure fixtures. -/
theorem reconcile_fetch_error_handling_witness :
    ((Reconcile fetchNotFoundClient okScheme req0).error = none ∧
      (Reconcile fetchNotFoundClient okScheme req0).result = emptyResult ∧
      (Reconcile fetchNotFoundClient okScheme req0).trace.filter StoreOp.isWrite = []) ∧
    ((Reconcile fetchFailClient okScheme req0).error = some (StoreError.other 7) ∧
      (Reconcile fetchFailClient okScheme req0).trace.filter StoreOp.isWrite = []) :=
  ⟨(reconcile_fetch_error_handling fetchNotFoundClient okScheme req0
      StoreError.notFound rfl).1 rfl,
   (reconcile_fetch_error_handling fetchFailClient okScheme req0
      (StoreError.other 7) rfl).2 rfl⟩

/-- C2: for every fetched instance, the Deployment that Reconcile builds
and passes to the create call has the instance's name and namespace,
exactly one container named webserver running the fixed image with port
8080 named http, replicas equal to the instance spec's count, and pod
selector and template labels both app ↦ instance name. -/
theorem reconcile_builds_expected_deployment
    (c : ClientBehavior) (s : SchemeBehavior) (req : NamespacedName)
    (inst : Webserver) (hget : c.getInstance = Except.ok inst)
    (hso : s.setOwnerDeployment = none) :
    StoreOp.createDeployment CtxKind.todo
        (setDeploymentOwner inst (buildDeployment inst)) ∈
      (Reconcile c s req).trace ∧
    (buildDeployment inst).name = inst.name ∧
    (buildDeployment inst).ns = inst.ns ∧
    (buildDeployment inst).spec.template.containers =
      [{ name := "webserver", image := webserverImage,
         ports := [{ name := "http", containerPort := 8080 }] }] ∧
    (buildDeployment inst).spec.replicas = inst.spec.count ∧
    (buildDeployment inst).spec.selector.matchLabels = [("app", inst.name)] ∧
    (buildDeployment inst).spec.template.labels = [("app", inst.name)] := by
  refine ⟨?_, rfl, rfl, rfl, rfl, rfl, rfl⟩
  unfold Reconcile
  rw [hget, hso]
  cases hcd : c.createDeployment with
  | some e =>
    cases hud : c.updateDeployment with
    | some e2 => simp [hcd, hud]
    | none =>
      simp only [hcd, hud]
      exact mem_reconcileService_trace _ _ _ _ _ (by simp)
  | none =>
    simp only [hcd]
    exact mem_reconcileService_trace _ _ _ _ _ (by simp)

/-- Closed instantiation of `reconcile_builds_expected_deployment` at the
spec's worked scenario `demo/site1` with count 2. -/
theorem reconcile_builds_expected_deployment_witness :
    StoreOp.createDeployment CtxKind.todo
        (setDeploymentOwner inst0 (buildDeployment inst0)) ∈
      (Reconcile (allOkClient inst0) okScheme req0).trace ∧
    (buildDeployment inst0).spec.replicas = 2 ∧
    (buildDeployment inst0).name = "site1" ∧
    (buildDeployment inst0).ns = "demo" :=
  ⟨(reconcile_builds_expected_deployment (allOkClient inst0) okScheme req0
      inst0 rfl rfl).1, rfl, rfl, rfl⟩

/-- Every op the service/route tail adds beyond the incoming trace is the
owned Service create or the owned Route create. -/
theorem reconcileService_trace_cases (c : ClientBehavior) (s : SchemeBehavior)
    (inst : Webserver) (t : List StoreOp) (op : StoreOp)
    (h : op ∈ (reconcileService c s inst t).trace) :
    op ∈ t ∨
    op = StoreOp.createService CtxKind.todo
        (setServiceOwner inst (buildService inst)) ∨
    op = StoreOp.createRoute CtxKind.todo
        (setRouteOwner inst (buildRoute inst)) := by
  unfold reconcileService at h
  cases hA : s.setOwnerService <;> rw [hA] at h
  case some e => exact Or.inl h
  cases hB : c.createService <;> rw [hB] at h
  case some e =>
    simp only [List.mem_append, List.mem_singleton] at h
    tauto
  cases hC : s.setOwnerRoute <;> rw [hC] at h
  case some e =>
    simp only [List.mem_append, List.mem_singleton] at h
    tauto
  cases hD : c.createRoute <;> rw [hD] at h <;>
    simp only [List.mem_append, List.mem_cons, List.mem_singleton,
      List.not_mem_nil, or_false] at h <;> tauto

/-- When the fetch succeeds, every op in the trace is the dispatcher-context
get or one of the four owned-child writes done with `context.TODO()`. -/
theorem reconcile_trace_cases (c : ClientBehavior) (s : SchemeBehavior)
    (req : NamespacedName) (inst : Webserver)
    (hget : c.getInstance = Except.ok inst) (op : StoreOp)
    (h : op ∈ (Reconcile c s req).trace) :
    op = StoreOp.getInstance CtxKind.dispatcher req ∨
    op = StoreOp.createDeployment CtxKind.todo
        (setDeploymentOwner inst (buildDeployment inst)) ∨
    op = StoreOp.updateDeployment CtxKind.todo
        (setDeploymentOwner inst (buildDeployment inst)) ∨
    op = StoreOp.createService CtxKind.todo
        (setServiceOwner inst (buildService inst)) ∨
    op = StoreOp.createRoute CtxKind.todo
        (setRouteOwner inst (buildRoute inst)) := by
  unfold Reconcile at h
  rw [hget] at h
  cases hso : s.setOwnerDeployment <;> rw [hso] at h
  case some e =>
    simp only [List.mem_singleton] at h
    tauto
  cases hcd : c.createDeployment <;> rw [hcd] at h
  case none =>
    rcases reconcileService_trace_cases _ _ _ _ _ h with h1 | h1 | h1
    · simp only [List.mem_append, List.mem_singleton] at h1
      tauto
    · tauto
    · tauto
  cases hud : c.updateDeployment <;> rw [hud] at h
  case some e2 =>
    simp only [List.mem_append, List.mem_singleton] at h
    tauto
  rcases reconcileService_trace_cases _ _ _ _ _ h with h1 | h1 | h1
  · simp only [List.mem_append, List.mem_singleton] at h1
    tauto
  · tauto
  · tauto

/-- When the fetch fails, the trace is just the get. -/
theorem reconcile_trace_fetch_error (c : ClientBehavior) (s : SchemeBehavior)
    (req : NamespacedName) (e : StoreError)
    (hget : c.getInstance = Except.error e) :
    (Reconcile c s req).trace = [StoreOp.getInstance CtxKind.dispatcher req] := by
  unfold Reconcile
  rw [hget]
  by_cases hnf : isNotFound e = true <;> simp [hnf]

/-- Equation: the service-owner assignment fails. -/
theorem reconcileService_eq_ownerFail (c : ClientBehavior) (s : SchemeBehavior)
    (inst : Webserver) (t : List StoreOp) (e : StoreError)
    (hsoS : s.setOwnerService = some e) :
    reconcileService c s inst t =
      { result := emptyResult, error := some e, trace := t } := by
  unfold reconcileService
  rw [hsoS]

/-- Equation: the Service create fails. -/
theorem reconcileService_eq_createFail (c : ClientBehavior) (s : SchemeBehavior)
    (inst : Webserver) (t : List StoreOp) (e : StoreError)
    (hsoS : s.setOwnerService = none) (hcs : c.createService = some e) :
    reconcileService c s inst t =
      { result := emptyResult, error := some e,
        trace := t ++ [StoreOp.createService CtxKind.todo
          (setServiceOwner inst (buildService inst))] } := by
  unfold reconcileService
  rw [hsoS, hcs]

/-- Equation: the route-owner assignment fails. -/
theorem reconcileService_eq_routeOwnerFail (c : ClientBehavior)
    (s : SchemeBehavior) (inst : Webserver) (t : List StoreOp) (e : StoreError)
    (hsoS : s.setOwnerService = none) (hcs : c.createService = none)
    (hsoR : s.setOwnerRoute = some e) :
    reconcileService c s inst t =
      { result := emptyResult, error := some e,
        trace := t ++ [StoreOp.createService CtxKind.todo
          (setServiceOwner inst (buildService inst))] } := by
  unfold reconcileService
  rw [hsoS, hcs, hsoR]

/-- Equation: the Route create fails. -/
theorem reconcileService_eq_routeCreateFail (c : ClientBehavior)
    (s : SchemeBehavior) (inst : Webserver) (t : List StoreOp) (e : StoreError)
    (hsoS : s.setOwnerService = none) (hcs : c.createService = none)
    (hsoR : s.setOwnerRoute = none) (hcr : c.createRoute = some e) :
    reconcileService c s inst t =
      { result := emptyResult, error := some e,
        trace := t ++ [StoreOp.createService CtxKind.todo
            (setServiceOwner inst (buildService inst)),
          StoreOp.createRoute CtxKind.todo
            (setRouteOwner inst (buildRoute inst))] } := by
  unfold reconcileService
  rw [hsoS, hcs, hsoR, hcr]
  simp

/-- Equation: the whole service/route tail succeeds. -/
theorem reconcileService_eq_ok (c : ClientBehavior) (s : SchemeBehavior)
    (inst : Webserver) (t : List StoreOp)
    (hsoS : s.setOwnerService = none) (hcs : c.createService = none)
    (hsoR : s.setOwnerRoute = none) (hcr : c.createRoute = none) :
    reconcileService c s inst t =
      { result := emptyResult, error := none,
        trace := t ++ [StoreOp.createService CtxKind.todo
            (setServiceOwner inst (buildService inst)),
          StoreOp.createRoute CtxKind.todo
            (setRouteOwner inst (buildRoute inst))] } := by
  unfold reconcileService
  rw [hsoS, hcs, hsoR, hcr]
  simp

/-- Equation: the deployment-owner assignment fails. -/
theorem Reconcile_eq_ownerDFail (c : ClientBehavior) (s : SchemeBehavior)
    (req : NamespacedName) (inst : Webserver) (e : StoreError)
    (hget : c.getInstance = Except.ok inst)
    (hso : s.setOwnerDeployment = some e) :
    Reconcile c s req =
      { result := emptyResult, error := some e,
        trace := [StoreOp.getInstance CtxKind.dispatcher req] } := by
  unfold Reconcile
  rw [hget, hso]

/-- Equation: the Deployment create succeeds and control reaches the
service/route tail. -/
theorem Reconcile_eq_tail_createOk (c : ClientBehavior) (s : SchemeBehavior)
    (req : NamespacedName) (inst : Webserver)
    (hget : c.getInstance = Except.ok inst)
    (hso : s.setOwnerDeployment = none) (hcd : c.createDeployment = none) :
    Reconcile c s req =
      reconcileService c s inst
        [StoreOp.getInstance CtxKind.dispatcher req,
         StoreOp.createDeployment CtxKind.todo
           (setDeploymentOwner inst (buildDeployment inst))] := by
  unfold Reconcile
  rw [hget, hso, hcd]
  rfl

/-- Equation: the Deployment create fails, the update succeeds, and
control reaches the service/route tail. -/
theorem Reconcile_eq_tail_updateOk (c : ClientBehavior) (s : SchemeBehavior)
    (req : NamespacedName) (inst : Webserver) (e1 : StoreError)
    (hget : c.getInstance = Except.ok inst)
    (hso : s.setOwnerDeployment = none)
    (hcd : c.createDeployment = some e1) (hud : c.updateDeployment = none) :
    Reconcile c s req =
      reconcileService c s inst
        [StoreOp.getInstance CtxKind.dispatcher req,
         StoreOp.createDeployment CtxKind.todo
           (setDeploymentOwner inst (buildDeployment inst)),
         StoreOp.updateDeployment CtxKind.todo
           (setDeploymentOwner inst (buildDeployment inst))] := by
  unfold Reconcile
  rw [hget, hso, hcd, hud]
  rfl

/-- Equation: both the Deployment create and update fail. -/
theorem Reconcile_eq_updateFail (c : ClientBehavior) (s : SchemeBehavior)
    (req : NamespacedName) (inst : Webserver) (e1 e2 : StoreError)
    (hget : c.getInstance = Except.ok inst)
    (hso : s.setOwnerDeployment = none)
    (hcd : c.createDeployment = some e1)
    (hud : c.updateDeployment = some e2) :
    Reconcile c s req =
      { result := emptyResult, error := some e2,
        trace := [StoreOp.getInstance CtxKind.dispatcher req,
          StoreOp.createDeployment CtxKind.todo
            (setDeploymentOwner inst (buildDeployment inst)),
          StoreOp.updateDeployment CtxKind.todo
            (setDeploymentOwner inst (buildDeployment inst))] } := by
  unfold Reconcile
  rw [hget, hso, hcd, hud]
  rfl

/-- A client on which the Deployment create fails (child already exists)
and the fallback update also fails. -/
def deployFallbackFailClient (inst : Webserver) : ClientBehavior :=
  { getInstance := Except.ok inst
    createDeployment := some StoreError.alreadyExists
    updateDeployment := some StoreError.conflict
    createService := none
    createRoute := none }

/-- A client on which the Deployment create fails and the fallback update
succeeds. -/
def deployFallbackOkClient (inst : Webserver) : ClientBehavior :=
  { getInstance := Except.ok inst
    createDeployment := some StoreError.alreadyExists
    updateDeployment := none
    createService := none
    createRoute := none }

/-- C3: when the Deployment create fails for any reason, Reconcile issues
an update with the same desired Deployment object; the deployment step
yields a returned error only when the update also fails, and then the
returned error is the update's error; when the update succeeds, control
proceeds to the service/route tail. -/
theorem deployment_create_update_fallback
    (c : ClientBehavior) (s : SchemeBehavior) (req : NamespacedName)
    (inst : Webserver) (e1 : StoreError)
    (hget : c.getInstance = Except.ok inst)
    (hso : s.setOwnerDeployment = none)
    (hcd : c.createDeployment = some e1) :
    StoreOp.updateDeployment CtxKind.todo
        (setDeploymentOwner inst (buildDeployment inst)) ∈
      (Reconcile c s req).trace ∧
    (∀ e2, c.updateDeployment = some e2 →
      (Reconcile c s req).error = some e2) ∧
    (c.updateDeployment = none →
      Reconcile c s req =
        reconcileService c s inst
          [StoreOp.getInstance CtxKind.dispatcher req,
           StoreOp.createDeployment CtxKind.todo
             (setDeploymentOwner inst (buildDeployment inst)),
           StoreOp.updateDeployment CtxKind.todo
             (setDeploymentOwner inst (buildDeployment inst))]) := by
  refine ⟨?_, ?_, ?_⟩
  · cases hud : c.updateDeployment with
    | some e2 =>
      rw [Reconcile_eq_updateFail c s req inst e1 e2 hget hso hcd hud]
      simp
    | none =>
      rw [Reconcile_eq_tail_updateOk c s req inst e1 hget hso hcd hud]
      exact mem_reconcileService_trace _ _ _ _ _ (by simp)
  · intro e2 hud
    rw [Reconcile_eq_updateFail c s req inst e1 e2 hget hso hcd hud]
  · intro hud
    exact Reconcile_eq_tail_updateOk c s req inst e1 hget hso hcd hud

/-- Closed instantiation of `deployment_create_update_fallback`: with the
update failing the update's error is returned, with it succeeding the
whole reconcile succeeds. -/
theorem deployment_create_update_fallback_witness :
    StoreOp.updateDeployment CtxKind.todo
        (setDeploymentOwner inst0 (buildDeployment inst0)) ∈
      (Reconcile (deployFallbackFailClient inst0) okScheme req0).trace ∧
    (Reconcile (deployFallbackFailClient inst0) okScheme req0).error =
      some StoreError.conflict ∧
    (Reconcile (deployFallbackOkClient inst0) okScheme req0).error = none :=
  ⟨(deployment_create_update_fallback (deployFallbackFailClient inst0)
      okScheme req0 inst0 StoreError.alreadyExists rfl rfl rfl).1,
   (deployment_create_update_fallback (deployFallbackFailClient inst0)
      okScheme req0 inst0 StoreError.alreadyExists rfl rfl rfl).2.1
     StoreError.conflict rfl,
   by
     rw [(deployment_create_update_fallback (deployFallbackOkClient inst0)
       okScheme req0 inst0 StoreError.alreadyExists rfl rfl rfl).2.2 rfl]
     rfl⟩

/-- No trace of any Reconcile run ever holds a Service update or a Route
update call. -/
theorem reconcile_no_child_update (c : ClientBehavior) (s : SchemeBehavior)
    (req : NamespacedName) (op : StoreOp)
    (h : op ∈ (Reconcile c s req).trace) :
    op.opKind ≠ OpKind.updateS ∧ op.opKind ≠ OpKind.updateR := by
  cases hget : c.getInstance with
  | error e =>
    rw [reconcile_trace_fetch_error c s req e hget] at h
    simp only [List.mem_singleton] at h
    subst h
    simp [StoreOp.opKind]
  | ok inst =>
    rcases reconcile_trace_cases c s req inst hget op h with
      h1 | h1 | h1 | h1 | h1 <;> subst h1 <;> simp [StoreOp.opKind]

/-- A client on which the Service create fails with AlreadyExists. -/
def serviceExistsClient (inst : Webserver) : ClientBehavior :=
  { getInstance := Except.ok inst
    createDeployment := none
    updateDeployment := none
    createService := some StoreError.alreadyExists
    createRoute := none }

/-- A client on which the Route create fails with AlreadyExists. -/
def routeExistsClient (inst : Webserver) : ClientBehavior :=
  { getInstance := Except.ok inst
    createDeployment := none
    updateDeployment := none
    createService := none
    createRoute := some StoreError.alreadyExists }

/-- C4: once the deployment step has succeeded, a Service create failure
of any kind is returned at once and the Route is never attempted; a Route
create failure of any kind is returned; and no Reconcile run ever issues
an update for a Service or a Route. -/
theorem service_route_create_no_fallback
    (c : ClientBehavior) (s : SchemeBehavior) (req : NamespacedName)
    (inst : Webserver)
    (hget : c.getInstance = Except.ok inst)
    (hsoD : s.setOwnerDeployment = none)
    (hdep : c.createDeployment = none ∨ c.updateDeployment = none)
    (hsoS : s.setOwnerService = none) :
    (∀ e, c.createService = some e →
      (Reconcile c s req).error = some e ∧
      OpKind.createR ∉ (Reconcile c s req).trace.map StoreOp.opKind) ∧
    (∀ e, c.createService = none → s.setOwnerRoute = none →
      c.createRoute = some e → (Reconcile c s req).error = some e) ∧
    (∀ op, op ∈ (Reconcile c s req).trace →
      op.opKind ≠ OpKind.updateS ∧ op.opKind ≠ OpKind.updateR) := by
  have hR : ∃ t, Reconcile c s req = reconcileService c s inst t ∧
      OpKind.createR ∉ t.map StoreOp.opKind := by
    rcases hdep with hcd | hud
    · exact ⟨_, Reconcile_eq_tail_createOk c s req inst hget hsoD hcd,
        by simp [StoreOp.opKind]⟩
    · cases hcd : c.createDeployment with
      | none =>
        exact ⟨_, Reconcile_eq_tail_createOk c s req inst hget hsoD hcd,
          by simp [StoreOp.opKind]⟩
      | some e1 =>
        exact ⟨_, Reconcile_eq_tail_updateOk c s req inst e1 hget hsoD hcd hud,
          by simp [StoreOp.opKind]⟩
  obtain ⟨t, hRt, hnR⟩ := hR
  refine ⟨?_, ?_, fun op hop => reconcile_no_child_update c s req op hop⟩
  · intro e hcs
    rw [hRt, reconcileService_eq_createFail c s inst t e hsoS hcs]
    refine ⟨rfl, ?_⟩
    simpa [List.mem_append, StoreOp.opKind] using hnR
  · intro e hcs hsoR hcr
    rw [hRt, reconcileService_eq_routeCreateFail c s inst t e hsoS hcs hsoR hcr]

/-- Closed instantiation of `service_route_create_no_fallback`: an
already-existing Service fails the run without touching the Route, an
already-existing Route fails the run, and the all-ok trace holds no
Service/Route update. -/
theorem service_route_create_no_fallback_witness :
    ((Reconcile (serviceExistsClient inst0) okScheme req0).error =
        some StoreError.alreadyExists ∧
      OpKind.createR ∉
        (Reconcile (serviceExistsClient inst0) okScheme req0).trace.map
          StoreOp.opKind) ∧
    (Reconcile (routeExistsClient inst0) okScheme req0).error =
      some StoreError.alreadyExists ∧
    ((StoreOp.getInstance CtxKind.dispatcher req0).opKind ≠ OpKind.updateS ∧
      (StoreOp.getInstance CtxKind.dispatcher req0).opKind ≠ OpKind.updateR) :=
  ⟨(service_route_create_no_fallback (serviceExistsClient inst0) okScheme
      req0 inst0 rfl rfl (Or.inl rfl) rfl).1 StoreError.alreadyExists rfl,
   (service_route_create_no_fallback (routeExistsClient inst0) okScheme
      req0 inst0 rfl rfl (Or.inl rfl) rfl).2.1 StoreError.alreadyExists
     rfl rfl rfl,
   (service_route_create_no_fallback (allOkClient inst0) okScheme
      req0 inst0 rfl rfl (Or.inl rfl) rfl).2.2
     (StoreOp.getInstance CtxKind.dispatcher req0) (by decide)⟩

/-- The cluster before the first run: no child exists. -/
def emptyCluster : Cluster :=
  { hasDeployment := false, hasService := false, hasRoute := false }

/-- First Reconcile run against the empty cluster. -/
def firstRun (inst : Webserver) (req : NamespacedName) : ReconcileOutcome :=
  Reconcile (clusterClient emptyCluster inst) okScheme req

/-- The cluster after the first run. -/
def clusterAfterFirstRun (inst : Webserver) (req : NamespacedName) : Cluster :=
  applyOps emptyCluster (firstRun inst req).trace

/-- Second Reconcile run, no external changes in between. -/
def secondRun (inst : Webserver) (req : NamespacedName) : ReconcileOutcome :=
  Reconcile (clusterClient (clusterAfterFirstRun inst req) inst) okScheme req

/-- C5: with no external changes between calls, the first run succeeds;
on the second run all three children exist, so the Deployment create
fails with AlreadyExists but its fallback update succeeds (the update
call appears in the trace), while the Service create fails with
AlreadyExists and that error is returned — the second run fails. -/
theorem reconcile_twice_service_limitation (inst : Webserver)
    (req : NamespacedName) :
    (firstRun inst req).error = none ∧
    (clusterClient (clusterAfterFirstRun inst req) inst).createDeployment =
      some StoreError.alreadyExists ∧
    (clusterClient (clusterAfterFirstRun inst req) inst).updateDeployment =
      none ∧
    OpKind.updateD ∈ (secondRun inst req).trace.map StoreOp.opKind ∧
    (clusterClient (clusterAfterFirstRun inst req) inst).createService =
      some StoreError.alreadyExists ∧
    (secondRun inst req).error = some StoreError.alreadyExists := by
  refine ⟨rfl, rfl, rfl, ?_, rfl, rfl⟩
  show OpKind.updateD ∈ List.map StoreOp.opKind
    [StoreOp.getInstance CtxKind.dispatcher req,
     StoreOp.createDeployment CtxKind.todo
       (setDeploymentOwner inst (buildDeployment inst)),
     StoreOp.updateDeployment CtxKind.todo
       (setDeploymentOwner inst (buildDeployment inst)),
     StoreOp.createService CtxKind.todo
       (setServiceOwner inst (buildService inst))]
  simp [StoreOp.opKind]

/-- A scheme failing the Deployment owner assignment. -/
def ownerDeployFailScheme : SchemeBehavior :=
  { setOwnerDeployment := some (StoreError.other 3)
    setOwnerService := none
    setOwnerRoute := none }

/-- A scheme failing the Service owner assignment. -/
def ownerServiceFailScheme : SchemeBehavior :=
  { setOwnerDeployment := none
    setOwnerService := some (StoreError.other 4)
    setOwnerRoute := none }

/-- A scheme failing the Route owner assignment. -/
def ownerRouteFailScheme : SchemeBehavior :=
  { setOwnerDeployment := none
    setOwnerService := none
    setOwnerRoute := some (StoreError.other 5) }

/-- C6: each child passed to a create call already carries the instance
as its controller-owner, and a failed owner assignment aborts the run
with that error before the corresponding create is attempted. -/
theorem owner_reference_before_create
    (c : ClientBehavior) (s : SchemeBehavior) (req : NamespacedName)
    (inst : Webserver) (hget : c.getInstance = Except.ok inst) :
    (∀ e, s.setOwnerDeployment = some e →
      (Reconcile c s req).error = some e ∧
      (Reconcile c s req).trace.filter StoreOp.isWrite = []) ∧
    (∀ e, s.setOwnerDeployment = none →
      (c.createDeployment = none ∨ c.updateDeployment = none) →
      s.setOwnerService = some e →
      (Reconcile c s req).error = some e ∧
      OpKind.createS ∉ (Reconcile c s req).trace.map StoreOp.opKind) ∧
    (∀ e, s.setOwnerDeployment = none →
      (c.createDeployment = none ∨ c.updateDeployment = none) →
      s.setOwnerService = none → c.createService = none →
      s.setOwnerRoute = some e →
      (Reconcile c s req).error = some e ∧
      OpKind.createR ∉ (Reconcile c s req).trace.map StoreOp.opKind) ∧
    (∀ ck d, StoreOp.createDeployment ck d ∈ (Reconcile c s req).trace →
      d.ownerRef = some { ownerName := inst.name }) ∧
    (∀ ck sv, StoreOp.createService ck sv ∈ (Reconcile c s req).trace →
      sv.ownerRef = some { ownerName := inst.name }) ∧
    (∀ ck rt, StoreOp.createRoute ck rt ∈ (Reconcile c s req).trace →
      rt.ownerRef = some { ownerName := inst.name }) := by
  have hR : ∀ hsoD : s.setOwnerDeployment = none,
      (c.createDeployment = none ∨ c.updateDeployment = none) →
      ∃ t, Reconcile c s req = reconcileService c s inst t ∧
        OpKind.createS ∉ t.map StoreOp.opKind ∧
        OpKind.createR ∉ t.map StoreOp.opKind := by
    intro hsoD hdep
    rcases hdep with hcd | hud
    · exact ⟨_, Reconcile_eq_tail_createOk c s req inst hget hsoD hcd,
        by simp [StoreOp.opKind], by simp [StoreOp.opKind]⟩
    · cases hcd : c.createDeployment with
      | none =>
        exact ⟨_, Reconcile_eq_tail_createOk c s req inst hget hsoD hcd,
          by simp [StoreOp.opKind], by simp [StoreOp.opKind]⟩
      | some e1 =>
        exact ⟨_, Reconcile_eq_tail_updateOk c s req inst e1 hget hsoD hcd hud,
          by simp [StoreOp.opKind], by simp [StoreOp.opKind]⟩
  refine ⟨?_, ?_, ?_, ?_, ?_, ?_⟩
  · intro e hso
    rw [Reconcile_eq_ownerDFail c s req inst e hget hso]
    exact ⟨rfl, by simp [StoreOp.isWrite, List.filter]⟩
  · intro e hsoD hdep hsoS
    obtain ⟨t, hRt, hnS, hnR⟩ := hR hsoD hdep
    rw [hRt, reconcileService_eq_ownerFail c s inst t e hsoS]
    exact ⟨rfl, hnS⟩
  · intro e hsoD hdep hsoS hcs hsoR
    obtain ⟨t, hRt, hnS, hnR⟩ := hR hsoD hdep
    rw [hRt, reconcileService_eq_routeOwnerFail c s inst t e hsoS hcs hsoR]
    refine ⟨rfl, ?_⟩
    simpa [List.mem_append, StoreOp.opKind] using hnR
  · intro ck d hmem
    rcases reconcile_trace_cases c s req inst hget _ hmem with h1 | h1 | h1 | h1 | h1
    · simp at h1
    · injection h1 with h2 h3
      subst h3
      rfl
    · simp at h1
    · simp at h1
    · simp at h1
  · intro ck sv hmem
    rcases reconcile_trace_cases c s req inst hget _ hmem with h1 | h1 | h1 | h1 | h1
    · simp at h1
    · simp at h1
    · simp at h1
    · injection h1 with h2 h3
      subst h3
      rfl
    · simp at h1
  · intro ck rt hmem
    rcases reconcile_trace_cases c s req inst hget _ hmem with h1 | h1 | h1 | h1 | h1
    · simp at h1
    · simp at h1
    · simp at h1
    · simp at h1
    · injection h1 with h2 h3
      subst h3
      rfl

/-- Closed instantiation of `owner_reference_before_create`: each owner
assignment failure is returned, and the created Deployment of the all-ok
run carries the instance as controller-owner. -/
theorem owner_reference_before_create_witness :
    ((Reconcile (allOkClient inst0) ownerDeployFailScheme req0).error =
        some (StoreError.other 3) ∧
      (Reconcile (allOkClient inst0) ownerDeployFailScheme
        req0).trace.filter StoreOp.isWrite = []) ∧
    (Reconcile (allOkClient inst0) ownerServiceFailScheme req0).error =
      some (StoreError.other 4) ∧
    (Reconcile (allOkClient inst0) ownerRouteFailScheme req0).error =
      some (StoreError.other 5) ∧
    (setDeploymentOwner inst0 (buildDeployment inst0)).ownerRef =
      some { ownerName := inst0.name } :=
  ⟨(owner_reference_before_create (allOkClient inst0) ownerDeployFailScheme
      req0 inst0 rfl).1 (StoreError.other 3) rfl,
   ((owner_reference_before_create (allOkClient inst0) ownerServiceFailScheme
      req0 inst0 rfl).2.1 (StoreError.other 4) rfl (Or.inl rfl) rfl).1,
   ((owner_reference_before_create (allOkClient inst0) ownerRouteFailScheme
      req0 inst0 rfl).2.2.1 (StoreError.other 5) rfl (Or.inl rfl) rfl rfl
      rfl).1,
   (owner_reference_before_create (allOkClient inst0) okScheme
      req0 inst0 rfl).2.2.2.1 CtxKind.todo
     (setDeploymentOwner inst0 (buildDeployment inst0)) (by decide)⟩

/-- C7 counterexample: on the all-ok run of the worked scenario, not every
store call takes the dispatcher-supplied context — the Deployment create
is issued with `context.TODO()` (source line 108), which the dispatcher
cannot cancel. -/
theorem ctx_not_dispatcher_counterexample :
    ¬ (∀ op, op ∈ (Reconcile (allOkClient inst0) okScheme req0).trace →
        StoreOp.ctxUsed op = CtxKind.dispatcher) := by
  intro h
  have h1 := h (StoreOp.createDeployment CtxKind.todo
    (setDeploymentOwner inst0 (buildDeployment inst0))) (by decide)
  exact absurd h1 (by decide)

/-- C7 amended: only the instance fetch takes the dispatcher-supplied
cancellable context; every create/update call is issued with
`context.TODO()`, so cancellation mid-reconcile does not stop the
remaining steps; a fetch failure (as a cancelled fetch would produce)
does abort the run with that error after the single get call. -/
theorem ctx_usage_amended (c : ClientBehavior) (s : SchemeBehavior)
    (req : NamespacedName) :
    (∀ op, op ∈ (Reconcile c s req).trace →
      (StoreOp.opKind op = OpKind.getI →
        StoreOp.ctxUsed op = CtxKind.dispatcher) ∧
      (StoreOp.opKind op ≠ OpKind.getI →
        StoreOp.ctxUsed op = CtxKind.todo)) ∧
    (∀ e, c.getInstance = Except.error e → isNotFound e = false →
      (Reconcile c s req).error = some e ∧
      (Reconcile c s req).trace =
        [StoreOp.getInstance CtxKind.dispatcher req]) := by
  constructor
  · intro op hop
    cases hget : c.getInstance with
    | error e =>
      rw [reconcile_trace_fetch_error c s req e hget] at hop
      simp only [List.mem_singleton] at hop
      subst hop
      simp [StoreOp.opKind, StoreOp.ctxUsed]
    | ok inst =>
      rcases reconcile_trace_cases c s req inst hget op hop with
        h1 | h1 | h1 | h1 | h1 <;> subst h1 <;>
        simp [StoreOp.opKind, StoreOp.ctxUsed]
  · intro e hget hnf
    refine ⟨?_, reconcile_trace_fetch_error c s req e hget⟩
    unfold Reconcile
    rw [hget]
    simp [hnf]

/-- Closed instantiation of `ctx_usage_amended`: the get uses the
dispatcher context, the Deployment create uses TODO, and a failed fetch
returns its error with only the get in the trace. -/
theorem ctx_usage_amended_witness :
    StoreOp.ctxUsed (StoreOp.getInstance CtxKind.dispatcher req0) =
      CtxKind.dispatcher ∧
    StoreOp.ctxUsed (StoreOp.createDeployment CtxKind.todo
      (setDeploymentOwner inst0 (buildDeployment inst0))) = CtxKind.todo ∧
    (Reconcile fetchFailClient okScheme req0).error =
      some (StoreError.other 7) :=
  ⟨((ctx_usage_amended (allOkClient inst0) okScheme req0).1
      (StoreOp.getInstance CtxKind.dispatcher req0) (by decide)).1 rfl,
   ((ctx_usage_amended (allOkClient inst0) okScheme req0).1
      (StoreOp.createDeployment CtxKind.todo
        (setDeploymentOwner inst0 (buildDeployment inst0))) (by decide)).2
     (by decide),
   ((ctx_usage_amended fetchFailClient okScheme req0).2
      (StoreError.other 7) rfl rfl).1⟩

/-- C8: an instance decoded with an absent count yields a Deployment
requesting exactly 0 replicas; with `count = k` present it requests k;
in general the requested replica count equals the instance spec's count. -/
theorem replicas_equal_count_with_zero_default (ns name : String) (k : Int) :
    (buildDeployment (decodeWebserver ns name none)).spec.replicas = 0 ∧
    (buildDeployment (decodeWebserver ns name (some k))).spec.replicas = k ∧
    (∀ inst : Webserver,
      (buildDeployment inst).spec.replicas = inst.spec.count) :=
  ⟨rfl, rfl, fun _ => rfl⟩

/-- Result, success condition, and error provenance of the service/route
tail. -/
theorem reconcileService_spec (c : ClientBehavior) (s : SchemeBehavior)
    (inst : Webserver) (t : List StoreOp) :
    (reconcileService c s inst t).result = emptyResult ∧
    ((reconcileService c s inst t).error = none ↔
      (s.setOwnerService = none ∧ c.createService = none ∧
       s.setOwnerRoute = none ∧ c.createRoute = none)) ∧
    (∀ e, (reconcileService c s inst t).error = some e →
      s.setOwnerService = some e ∨ c.createService = some e ∨
      s.setOwnerRoute = some e ∨ c.createRoute = some e) := by
  cases hsoS : s.setOwnerService with
  | some e =>
    rw [reconcileService_eq_ownerFail c s inst t e hsoS]
    refine ⟨rfl, by simp [hsoS], ?_⟩
    intro e2 he2
    exact Or.inl he2
  | none =>
    cases hcs : c.createService with
    | some e =>
      rw [reconcileService_eq_createFail c s inst t e hsoS hcs]
      refine ⟨rfl, by simp [hcs], ?_⟩
      intro e2 he2
      exact Or.inr (Or.inl he2)
    | none =>
      cases hsoR : s.setOwnerRoute with
      | some e =>
        rw [reconcileService_eq_routeOwnerFail c s inst t e hsoS hcs hsoR]
        refine ⟨rfl, by simp [hsoR], ?_⟩
        intro e2 he2
        exact Or.inr (Or.inr (Or.inl he2))
      | none =>
        cases hcr : c.createRoute with
        | some e =>
          rw [reconcileService_eq_routeCreateFail c s inst t e hsoS hcs hsoR hcr]
          refine ⟨rfl, by simp [hcr], ?_⟩
          intro e2 he2
          exact Or.inr (Or.inr (Or.inr he2))
        | none =>
          rw [reconcileService_eq_ok c s inst t hsoS hcs hsoR hcr]
          exact ⟨rfl, by simp [hsoS, hcs, hsoR, hcr], by intro e2 he2; simp at he2⟩

/-- C9: the result object is always the empty outcome (no requeue
requested); the error is nil exactly when every step succeeded (instance
NotFound counting as success); and every returned error is the error of
one of the failed calls. -/
theorem reconcile_result_and_success (c : ClientBehavior) (s : SchemeBehavior)
    (req : NamespacedName) :
    (Reconcile c s req).result = emptyResult ∧
    ((Reconcile c s req).error = none ↔
      ((∃ e, c.getInstance = Except.error e ∧ isNotFound e = true) ∨
       ((∃ inst, c.getInstance = Except.ok inst) ∧
        s.setOwnerDeployment = none ∧
        (c.createDeployment = none ∨ c.updateDeployment = none) ∧
        s.setOwnerService = none ∧ c.createService = none ∧
        s.setOwnerRoute = none ∧ c.createRoute = none))) ∧
    (∀ e, (Reconcile c s req).error = some e →
      c.getInstance = Except.error e ∨ s.setOwnerDeployment = some e ∨
      c.updateDeployment = some e ∨ s.setOwnerService = some e ∨
      c.createService = some e ∨ s.setOwnerRoute = some e ∨
      c.createRoute = some e) := by
  cases hget : c.getInstance with
  | error e =>
    by_cases hnf : isNotFound e = true
    · have hE : Reconcile c s req =
          { result := emptyResult, error := none,
            trace := [StoreOp.getInstance CtxKind.dispatcher req] } := by
        unfold Reconcile
        rw [hget]
        simp [hnf]
      rw [hE]
      refine ⟨rfl, by simp [hnf], ?_⟩
      intro e2 he2
      simp at he2
    · have hE : Reconcile c s req =
          { result := emptyResult, error := some e,
            trace := [StoreOp.getInstance CtxKind.dispatcher req] } := by
        unfold Reconcile
        rw [hget]
        simp [hnf]
      rw [hE]
      refine ⟨rfl, by simp [hnf], ?_⟩
      intro e2 he2
      simp only [Option.some.injEq] at he2
      subst he2
      exact Or.inl rfl
  | ok inst =>
    cases hso : s.setOwnerDeployment with
    | some e =>
      rw [Reconcile_eq_ownerDFail c s req inst e hget hso]
      refine ⟨rfl, by simp, ?_⟩
      intro e2 he2
      simp only [Option.some.injEq] at he2
      subst he2
      exact Or.inr (Or.inl rfl)
    | none =>
      cases hcd : c.createDeployment with
      | some e1 =>
        cases hud : c.updateDeployment with
        | some e2 =>
          rw [Reconcile_eq_updateFail c s req inst e1 e2 hget hso hcd hud]
          refine ⟨rfl, by simp, ?_⟩
          intro e3 he3
          simp only [Option.some.injEq] at he3
          subst he3
          exact Or.inr (Or.inr (Or.inl rfl))
        | none =>
          rw [Reconcile_eq_tail_updateOk c s req inst e1 hget hso hcd hud]
          obtain ⟨hres, hiff, himp⟩ := reconcileService_spec c s inst
            [StoreOp.getInstance CtxKind.dispatcher req,
             StoreOp.createDeployment CtxKind.todo
               (setDeploymentOwner inst (buildDeployment inst)),
             StoreOp.updateDeployment CtxKind.todo
               (setDeploymentOwner inst (buildDeployment inst))]
          refine ⟨hres, ?_, ?_⟩
          · rw [hiff]
            constructor
            · rintro ⟨h1, h2, h3, h4⟩
              exact Or.inr ⟨⟨inst, rfl⟩, rfl, Or.inr rfl, h1, h2, h3, h4⟩
            · rintro (⟨e2, he2, -⟩ | ⟨-, -, -, h1, h2, h3, h4⟩)
              · exact Except.noConfusion he2
              · exact ⟨h1, h2, h3, h4⟩
          · intro e2 he2
            rcases himp e2 he2 with h | h | h | h
            · exact Or.inr (Or.inr (Or.inr (Or.inl h)))
            · exact Or.inr (Or.inr (Or.inr (Or.inr (Or.inl h))))
            · exact Or.inr (Or.inr (Or.inr (Or.inr (Or.inr (Or.inl h)))))
            · exact Or.inr (Or.inr (Or.inr (Or.inr (Or.inr (Or.inr h)))))
      | none =>
        rw [Reconcile_eq_tail_createOk c s req inst hget hso hcd]
        obtain ⟨hres, hiff, himp⟩ := reconcileService_spec c s inst
          [StoreOp.getInstance CtxKind.dispatcher req,
           StoreOp.createDeployment CtxKind.todo
             (setDeploymentOwner inst (buildDeployment inst))]
        refine ⟨hres, ?_, ?_⟩
        · rw [hiff]
          constructor
          · rintro ⟨h1, h2, h3, h4⟩
            exact Or.inr ⟨⟨inst, rfl⟩, rfl, Or.inl rfl, h1, h2, h3, h4⟩
          · rintro (⟨e2, he2, -⟩ | ⟨-, -, -, h1, h2, h3, h4⟩)
            · exact Except.noConfusion he2
            · exact ⟨h1, h2, h3, h4⟩
        · intro e2 he2
          rcases himp e2 he2 with h | h | h | h
          · exact Or.inr (Or.inr (Or.inr (Or.inl h)))
          · exact Or.inr (Or.inr (Or.inr (Or.inr (Or.inl h))))
          · exact Or.inr (Or.inr (Or.inr (Or.inr (Or.inr (Or.inl h)))))
          · exact Or.inr (Or.inr (Or.inr (Or.inr (Or.inr (Or.inr h)))))

/-- Closed instantiation of `reconcile_result_and_success`: the all-ok run
returns the empty result with nil error, and the failed-fetch error is
traced back to the fetch. -/
theorem reconcile_result_and_success_witness :
    (Reconcile (allOkClient inst0) okScheme req0).result = emptyResult ∧
    (Reconcile (allOkClient inst0) okScheme req0).error = none ∧
    (fetchFailClient.getInstance = Except.error (StoreError.other 7) ∨
     okScheme.setOwnerDeployment = some (StoreError.other 7) ∨
     fetchFailClient.updateDeployment = some (StoreError.other 7) ∨
     okScheme.setOwnerService = some (StoreError.other 7) ∨
     fetchFailClient.createService = some (StoreError.other 7) ∨
     okScheme.setOwnerRoute = some (StoreError.other 7) ∨
     fetchFailClient.createRoute = some (StoreError.other 7)) :=
  ⟨(reconcile_result_and_success (allOkClient inst0) okScheme req0).1,
   (reconcile_result_and_success (allOkClient inst0) okScheme req0).2.1.mpr
     (Or.inr ⟨⟨inst0, rfl⟩, rfl, Or.inl rfl, rfl, rfl, rfl, rfl⟩),
   (reconcile_result_and_success fetchFailClient okScheme req0).2.2
     (StoreError.other 7) rfl⟩

/-- The call kinds the service/route tail appends to the incoming trace:
nothing, just the Service create, or the Service create followed by the
Route create — the latter only when the Service create succeeded. -/
theorem reconcileService_kinds (c : ClientBehavior) (s : SchemeBehavior)
    (inst : Webserver) (t : List StoreOp) :
    (reconcileService c s inst t).trace.map StoreOp.opKind =
      t.map StoreOp.opKind ∨
    (reconcileService c s inst t).trace.map StoreOp.opKind =
      t.map StoreOp.opKind ++ [OpKind.createS] ∨
    ((reconcileService c s inst t).trace.map StoreOp.opKind =
      t.map StoreOp.opKind ++ [OpKind.createS, OpKind.createR] ∧
      c.createService = none) := by
  cases hsoS : s.setOwnerService with
  | some e =>
    rw [reconcileService_eq_ownerFail c s inst t e hsoS]
    exact Or.inl rfl
  | none =>
    cases hcs : c.createService with
    | some e =>
      rw [reconcileService_eq_createFail c s inst t e hsoS hcs]
      exact Or.inr (Or.inl (by simp [StoreOp.opKind]))
    | none =>
      cases hsoR : s.setOwnerRoute with
      | some e =>
        rw [reconcileService_eq_routeOwnerFail c s inst t e hsoS hcs hsoR]
        exact Or.inr (Or.inl (by simp [StoreOp.opKind]))
      | none =>
        cases hcr : c.createRoute with
        | some e =>
          rw [reconcileService_eq_routeCreateFail c s inst t e hsoS hcs hsoR hcr]
          exact Or.inr (Or.inr ⟨by simp [StoreOp.opKind], rfl⟩)
        | none =>
          rw [reconcileService_eq_ok c s inst t hsoS hcs hsoR hcr]
          exact Or.inr (Or.inr ⟨by simp [StoreOp.opKind], rfl⟩)

/-- C10: the call kinds of every trace follow the fixed order
fetch, Deployment create (then possibly its update), Service create,
Route create; each write kind appears in the trace exactly when every
earlier step succeeded and its own owner assignment did, so every
failure — fetch, owner assignment, Deployment update, Service or Route
create — stops all later store operations; a fetch failure leaves only
the get. -/
theorem store_operation_order_and_short_circuit
    (c : ClientBehavior) (s : SchemeBehavior) (req : NamespacedName) :
    ((Reconcile c s req).trace.map StoreOp.opKind ∈
      [[OpKind.getI],
       [OpKind.getI, OpKind.createD],
       [OpKind.getI, OpKind.createD, OpKind.createS],
       [OpKind.getI, OpKind.createD, OpKind.createS, OpKind.createR],
       [OpKind.getI, OpKind.createD, OpKind.updateD],
       [OpKind.getI, OpKind.createD, OpKind.updateD, OpKind.createS],
       [OpKind.getI, OpKind.createD, OpKind.updateD, OpKind.createS,
        OpKind.createR]]) ∧
    (∀ e, c.getInstance = Except.error e →
      (Reconcile c s req).trace.map StoreOp.opKind = [OpKind.getI]) ∧
    (OpKind.createD ∈ (Reconcile c s req).trace.map StoreOp.opKind ↔
      ((∃ inst, c.getInstance = Except.ok inst) ∧
       s.setOwnerDeployment = none)) ∧
    (OpKind.updateD ∈ (Reconcile c s req).trace.map StoreOp.opKind ↔
      (OpKind.createD ∈ (Reconcile c s req).trace.map StoreOp.opKind ∧
       c.createDeployment ≠ none)) ∧
    (OpKind.createS ∈ (Reconcile c s req).trace.map StoreOp.opKind ↔
      (OpKind.createD ∈ (Reconcile c s req).trace.map StoreOp.opKind ∧
       (c.createDeployment = none ∨ c.updateDeployment = none) ∧
       s.setOwnerService = none)) ∧
    (OpKind.createR ∈ (Reconcile c s req).trace.map StoreOp.opKind ↔
      (OpKind.createS ∈ (Reconcile c s req).trace.map StoreOp.opKind ∧
       c.createService = none ∧ s.setOwnerRoute = none)) := by
  cases hget : c.getInstance with
  | error e =>
    rw [reconcile_trace_fetch_error c s req e hget]
    refine ⟨by simp [StoreOp.opKind], ?_, ?_, ?_, ?_, ?_⟩ <;>
      simp [StoreOp.opKind]
  | ok inst =>
    cases hso : s.setOwnerDeployment with
    | some e =>
      rw [Reconcile_eq_ownerDFail c s req inst e hget hso]
      refine ⟨by simp [StoreOp.opKind], ?_, ?_, ?_, ?_, ?_⟩ <;>
        simp [StoreOp.opKind]
    | none =>
      cases hcd : c.createDeployment with
      | some e1 =>
        cases hud : c.updateDeployment with
        | some e2 =>
          rw [Reconcile_eq_updateFail c s req inst e1 e2 hget hso hcd hud]
          refine ⟨by simp [StoreOp.opKind], ?_, ?_, ?_, ?_, ?_⟩ <;>
            simp [StoreOp.opKind]
        | none =>
          rw [Reconcile_eq_tail_updateOk c s req inst e1 hget hso hcd hud]
          cases hsoS : s.setOwnerService with
          | some e =>
            rw [reconcileService_eq_ownerFail c s inst _ e hsoS]
            refine ⟨by simp [StoreOp.opKind], ?_, ?_, ?_, ?_, ?_⟩ <;>
              simp [StoreOp.opKind]
          | none =>
            cases hcs : c.createService with
            | some e =>
              rw [reconcileService_eq_createFail c s inst _ e hsoS hcs]
              refine ⟨by simp [StoreOp.opKind], ?_, ?_, ?_, ?_, ?_⟩ <;>
                simp [StoreOp.opKind]
            | none =>
              cases hsoR : s.setOwnerRoute with
              | some e =>
                rw [reconcileService_eq_routeOwnerFail c s inst _ e hsoS
                  hcs hsoR]
                refine ⟨by simp [StoreOp.opKind], ?_, ?_, ?_, ?_, ?_⟩ <;>
                  simp [StoreOp.opKind]
              | none =>
                cases hcr : c.createRoute with
                | some e =>
                  rw [reconcileService_eq_routeCreateFail c s inst _ e hsoS
                    hcs hsoR hcr]
                  refine ⟨by simp [StoreOp.opKind], ?_, ?_, ?_, ?_, ?_⟩ <;>
                    simp [StoreOp.opKind]
                | none =>
                  rw [reconcileService_eq_ok c s inst _ hsoS hcs hsoR hcr]
                  refine ⟨by simp [StoreOp.opKind], ?_, ?_, ?_, ?_, ?_⟩ <;>
                    simp [StoreOp.opKind]
      | none =>
        rw [Reconcile_eq_tail_createOk c s req inst hget hso hcd]
        cases hsoS : s.setOwnerService with
        | some e =>
          rw [reconcileService_eq_ownerFail c s inst _ e hsoS]
          refine ⟨by simp [StoreOp.opKind], ?_, ?_, ?_, ?_, ?_⟩ <;>
            simp [StoreOp.opKind]
        | none =>
          cases hcs : c.createService with
          | some e =>
            rw [reconcileService_eq_createFail c s inst _ e hsoS hcs]
            refine ⟨by simp [StoreOp.opKind], ?_, ?_, ?_, ?_, ?_⟩ <;>
              simp [StoreOp.opKind]
          | none =>
            cases hsoR : s.setOwnerRoute with
            | some e =>
              rw [reconcileService_eq_routeOwnerFail c s inst _ e hsoS
                hcs hsoR]
              refine ⟨by simp [StoreOp.opKind], ?_, ?_, ?_, ?_, ?_⟩ <;>
                simp [StoreOp.opKind]
            | none =>
              cases hcr : c.createRoute with
              | some e =>
                rw [reconcileService_eq_routeCreateFail c s inst _ e hsoS
                  hcs hsoR hcr]
                refine ⟨by simp [StoreOp.opKind], ?_, ?_, ?_, ?_, ?_⟩ <;>
                  simp [StoreOp.opKind]
              | none =>
                rw [reconcileService_eq_ok c s inst _ hsoS hcs hsoR hcr]
                refine ⟨by simp [StoreOp.opKind], ?_, ?_, ?_, ?_, ?_⟩ <;>
                  simp [StoreOp.opKind]

/-- Closed instantiation of `store_operation_order_and_short_circuit`:
the NotFound run issues only the get; the all-ok run does reach the Route
create; and the run whose Deployment update fails issues no Service
create — the failure stops the sequence. -/
theorem store_operation_order_witness :
    (Reconcile fetchNotFoundClient okScheme req0).trace.map StoreOp.opKind =
      [OpKind.getI] ∧
    OpKind.createR ∈
      (Reconcile (allOkClient inst0) okScheme req0).trace.map
        StoreOp.opKind ∧
    OpKind.createS ∉
      (Reconcile (deployFallbackFailClient inst0) okScheme req0).trace.map
        StoreOp.opKind :=
  ⟨(store_operation_order_and_short_circuit fetchNotFoundClient okScheme
      req0).2.1 StoreError.notFound rfl,
   ((store_operation_order_and_short_circuit (allOkClient inst0) okScheme
      req0).2.2.2.2.2).mpr ⟨by decide, rfl, rfl⟩,
   fun h => by
     rcases ((store_operation_order_and_short_circuit
       (deployFallbackFailClient inst0) okScheme req0).2.2.2.2.1).mp h with
       ⟨-, hdep, -⟩
     rcases hdep with h2 | h2 <;> exact Option.noConfusion h2⟩
